import Mathlib

/-!
Verification of the telegram-ai-bot authorization/invitation subsystem and
transcription fallback pipeline, as a shallow embedding of the Python source.

Embedded source files:
* `src/telegram_ai_bot/utils/user_manager.py` (class `UserManager`)
* `bot.py` (class `TelegramAIBot`: `invite_command`, `process_invitation`,
  `transcribe_audio`, `handle_voice`)
* `src/telegram_ai_bot/utils/ai_service.py` (`AIService.transcribe_audio`)
* `src/telegram_ai_bot/handlers/command_handlers.py` (`invite_command`)
* `src/telegram_ai_bot/handlers/message_handlers.py` (`handle_voice`)

External effects (the wall clock, the random token source, the network calls
of the transcription strategies, and success/failure of file-system writes)
are passed in as explicit parameters; the control flow around them is
translated from the source.
-/

set_option autoImplicit false

namespace TgBot

/-! Part: `UserManager` (src/telegram_ai_bot/utils/user_manager.py)

The backing file `authorized_users.json` is modelled by `FileState`:
absent, present-but-unparsable (any `json.load` failure), or parsed.
Every consumer of the parsed list immediately converts it to a set
(`set(data.get('users', []))`), so the parsed contents are modelled as a
`Finset Int` directly. -/

inductive FileState where
  | absent : FileState
  | unparsable : FileState
  | parsed : Finset Int → FileState
  deriving DecidableEq

structure UMState where
  users : Finset Int
  file : FileState
  deriving DecidableEq

/-- Model of `UserManager._load_users`: `json.load` the file and take
`set(data.get('users', []))`; any exception is logged and swallowed,
returning the empty set. -/
def load_users (f : FileState) : Finset Int :=
  match f with
  | FileState.parsed l => l
  | _ => ∅

/-- Model of `UserManager._save_users`: overwrite the file with the current
membership set; any exception is logged and swallowed (the in-memory set
keeps the mutation either way). `wok` says whether the OS write succeeds. -/
def save_users (wok : Bool) (s : UMState) : UMState :=
  if wok then { s with file := FileState.parsed s.users } else s

/-- Model of `UserManager._ensure_file_exists`: when the file is absent, create it
with contents `{"users": []}`. This method has NO try/except in the source:
a failing `mkdir`/`open` propagates out of `__init__`. `cok` says whether
the OS create succeeds. -/
def ensure_file_exists (f : FileState) (cok : Bool) : Except Unit FileState :=
  match f with
  | FileState.absent =>
      if cok then Except.ok (FileState.parsed ∅) else Except.error ()
  | other => Except.ok other

/-- Model of `UserManager.add_user`: if absent, insert into the in-memory set, then
persist (persist failures swallowed), return `True`; else return `False`. -/
def add_user (s : UMState) (uid : Int) (wok : Bool) : Bool × UMState :=
  if uid ∉ s.users then
    (true, save_users wok { s with users := insert uid s.users })
  else
    (false, s)

/-- Model of `UserManager.remove_user`: symmetric to `add_user`. -/
def remove_user (s : UMState) (uid : Int) (wok : Bool) : Bool × UMState :=
  if uid ∈ s.users then
    (true, save_users wok { s with users := s.users.erase uid })
  else
    (false, s)

/-- Model of `UserManager.is_authorized`: pure membership test. -/
def is_authorized (s : UMState) (uid : Int) : Bool :=
  decide (uid ∈ s.users)

/-- Model of `UserManager.get_user_count`. -/
def get_user_count (s : UMState) : Nat :=
  s.users.card

/-- Model of `UserManager.__init__`: ensure the file exists (unguarded), load the
users, then bootstrap the admin: `if self.admin_user_id and
self.admin_user_id not in self.users: self.add_user(self.admin_user_id)`.
Python truthiness of the parsed admin id makes `0` (and an unset admin,
`none`) skip the bootstrap. `cok` is the create-write outcome, `wok` the
outcome of the bootstrap persist. -/
def mk_user_manager (f : FileState) (admin : Option Int) (cok wok : Bool) :
    Except Unit UMState :=
  match ensure_file_exists f cok with
  | Except.error e => Except.error e
  | Except.ok f1 =>
      let s : UMState := { users := load_users f1, file := f1 }
      match admin with
      | none => Except.ok s
      | some a =>
          if a ≠ 0 ∧ a ∉ s.users then Except.ok (add_user s a wok).2
          else Except.ok s

/-- Model of `UserManager.generate_invite_token`: returns `secrets.token_urlsafe(16)`
(the random source is the parameter `rand`) and touches nothing: no pending
map exists in `UserManager`, and no issuer or creation time is recorded. -/
def generate_invite_token (s : UMState) (rand : String) : String × UMState :=
  (rand, s)

/-- Model of `command_handlers.invite_command` (package variant): admin check, then
`user_manager.generate_invite_token`, then build and send the deep link.
Returns the unchanged manager state and the token put into the link
(`none` when the caller is not the admin). -/
def pkg_invite_command (um : UMState) (adminId : Int) (uid : Int)
    (rand : String) : UMState × Option String :=
  if uid ≠ adminId then (um, none)
  else
    let t := generate_invite_token um rand
    (t.2, some t.1)

/-! Part: `TelegramAIBot` invitations (bot.py)

`pending_invitations` is a Python dict from token string to a record
`{'created_by': ..., 'created_at': ...}`; it is modelled as a key-unique
association list (insertion replaces, deletion removes the key, lookup
finds the entry). `created_at` (an ISO timestamp string in the source) is
modelled as seconds, `Nat`. -/

structure Invitation where
  created_by : Int
  created_at : Nat
  deriving DecidableEq

def pendingLookup (tok : String) : List (String × Invitation) → Option Invitation
  | [] => none
  | (k, v) :: rest => if k = tok then some v else pendingLookup tok rest

def pendingErase (tok : String) : List (String × Invitation) → List (String × Invitation)
  | [] => []
  | (k, v) :: rest =>
      if k = tok then pendingErase tok rest else (k, v) :: pendingErase tok rest

structure BotState where
  admin_user_id : Int
  authorized_users : Finset Int
  users_file : Option (Finset Int)
  pending_invitations : List (String × Invitation)
  deriving DecidableEq

/-- The 24-hour validity window promised by the invite message
("This link will expire in 24 hours."), in seconds. -/
def VALIDITY_WINDOW : Nat := 86400

/-- Model of `TelegramAIBot.invite_command`: reject non-admin callers; otherwise
generate `secrets.token_urlsafe(16)` (parameter `tok`), record it in
`pending_invitations` with issuer and creation time `now`, and send the
deep link. Returns the token actually issued. -/
def invite_command (s : BotState) (uid : Int) (tok : String) (now : Nat) :
    BotState × Option String :=
  if uid ≠ s.admin_user_id then (s, none)
  else
    ({ s with pending_invitations :=
        (tok, { created_by := uid, created_at := now }) ::
          pendingErase tok s.pending_invitations },
     some tok)

inductive InvResult where
  | success : InvResult
  | invalid : InvResult
  deriving DecidableEq

/-- One observable step of `TelegramAIBot.process_invitation`, in source
order, used to state ordering properties of the handler body. -/
inductive InvEvent where
  | addUser : Int → InvEvent
  | saveUsers : InvEvent
  | removeToken : String → InvEvent
  deriving DecidableEq

/-- Model of `TelegramAIBot.process_invitation`: if the token is pending, the body
runs `self.authorized_users.add(user_id)`, then
`self.save_authorized_users()`, then `del self.pending_invitations[token]`,
then replies with the welcome message; otherwise it replies
"Invalid or expired invitation link.". The source reads no clock here;
`now` stands for the wall-clock time of the redemption and is unused. -/
def process_invitation (s : BotState) (uid : Int) (token : String) (now : Nat) :
    BotState × InvResult × List InvEvent :=
  match pendingLookup token s.pending_invitations with
  | some _ =>
      let s1 := { s with authorized_users := insert uid s.authorized_users }
      let s2 := { s1 with users_file := some s1.authorized_users }
      let s3 := { s2 with pending_invitations :=
                    pendingErase token s2.pending_invitations }
      (s3, InvResult.success,
        [InvEvent.addUser uid, InvEvent.saveUsers, InvEvent.removeToken token])
  | none => (s, InvResult.invalid, [])

def isAddEvent : InvEvent → Bool
  | InvEvent.addUser _ => true
  | _ => false

def isRemoveEvent : InvEvent → Bool
  | InvEvent.removeToken _ => true
  | _ => false

/-- Index of the first event satisfying `p`. -/
def idxOf? (p : InvEvent → Bool) : List InvEvent → Option Nat
  | [] => none
  | e :: rest => if p e then some 0 else (idxOf? p rest).map (· + 1)

/-- The first token removal happens strictly before the first
authorization-store add. -/
def removeBeforeAdd (tr : List InvEvent) : Bool :=
  match idxOf? isRemoveEvent tr, idxOf? isAddEvent tr with
  | some i, some j => decide (i < j)
  | _, _ => false

/-- The first authorization-store add happens strictly before the first
token removal. -/
def addBeforeRemove (tr : List InvEvent) : Bool :=
  match idxOf? isAddEvent tr, idxOf? isRemoveEvent tr with
  | some i, some j => decide (i < j)
  | _, _ => false

/-! Part: Transcription fallback chain
(src/telegram_ai_bot/utils/ai_service.py, isolated_whisper.py,
whisper_service.py)

Each strategy is an external network/subprocess call; its outcome is a
parameter of type `Except String String` (error message, or transcript).
The try/except orchestration is translated from
`AIService.transcribe_audio`. -/

inductive Strategy where
  | subprocess : Strategy
  | curl : Strategy
  | whisperClient : Strategy
  deriving DecidableEq

/-- Model of `WhisperService.transcribe` (strategy 3 internals): one minimal call
(`m1`); on failure, one retry with an explicit plain-text response format
(`m2`), whose failure propagates. -/
def whisper_transcribe (m1 m2 : Except String String) : Except String String :=
  match m1 with
  | Except.ok t => Except.ok t
  | Except.error _ => m2

/-- Model of `AIService.transcribe_audio`: inner try runs the isolated subprocess
strategy (`r1`); its except clause runs the curl strategy (`r2`); the outer
except clause catches any failure of both and runs the fresh in-process
client strategy (`r3`), whose failure propagates to the caller. Also
returns the list of strategies invoked, in invocation order. -/
def transcribe_audio (r1 r2 r3 : Except String String) :
    Except String String × List Strategy :=
  match r1 with
  | Except.ok t => (Except.ok t, [Strategy.subprocess])
  | Except.error _ =>
      match r2 with
      | Except.ok t => (Except.ok t, [Strategy.subprocess, Strategy.curl])
      | Except.error _ =>
          match r3 with
          | Except.ok t =>
              (Except.ok t,
                [Strategy.subprocess, Strategy.curl, Strategy.whisperClient])
          | Except.error e =>
              (Except.error e,
                [Strategy.subprocess, Strategy.curl, Strategy.whisperClient])

/-! Part: Voice handlers (bot.py `handle_voice`,
message_handlers.py `handle_voice`)

The observable we verify is the temporary audio artifact: whether it was
created and whether it still exists when the handler returns. -/

inductive VoiceReply where
  | accessDenied : VoiceReply
  | couldNotTranscribe : VoiceReply
  | analysisReply : VoiceReply
  | errorReply : VoiceReply
  deriving DecidableEq

structure VoiceResult where
  tempCreated : Bool
  tempExistsAtExit : Bool
  reply : VoiceReply
  deriving DecidableEq

/-- Model of `TelegramAIBot.transcribe_audio` (bot.py variant): a single client
call; any exception is logged and swallowed, returning `None`. -/
def bot_transcribe_audio (r : Except String String) : Option String :=
  match r with
  | Except.ok t => some t
  | Except.error _ => none

/-- Model of `TelegramAIBot.handle_voice` (bot.py): authorization gate; download to
a `NamedTemporaryFile(delete=False)`; transcribe; on `if not transcript`
(i.e. `None` or the empty string) reply "Could not transcribe audio" and
`return` — WITHOUT `os.unlink`; on the success path `os.unlink` runs just
before the final reply. (The analysis step swallows its own errors and
cannot fail.) -/
def bot_handle_voice (authorized : Bool) (r : Except String String) : VoiceResult :=
  if authorized = false then
    { tempCreated := false, tempExistsAtExit := false,
      reply := VoiceReply.accessDenied }
  else
    match bot_transcribe_audio r with
    | none =>
        { tempCreated := true, tempExistsAtExit := true,
          reply := VoiceReply.couldNotTranscribe }
    | some t =>
        if t.isEmpty then
          { tempCreated := true, tempExistsAtExit := true,
            reply := VoiceReply.couldNotTranscribe }
        else
          { tempCreated := true, tempExistsAtExit := false,
            reply := VoiceReply.analysisReply }

/-- Model of `message_handlers.handle_voice` (package variant): authorization gate;
download inside a try whose except clause unlinks the artifact whenever
`audio_path` is bound; transcription failure raises (the fallback chain of
`transcribe_audio` exhausted) and is caught by that except clause; the
success path unlinks after sending the reply. -/
def pkg_handle_voice (authorized : Bool) (r1 r2 r3 : Except String String) :
    VoiceResult :=
  if authorized = false then
    { tempCreated := false, tempExistsAtExit := false,
      reply := VoiceReply.accessDenied }
  else
    match (transcribe_audio r1 r2 r3).1 with
    | Except.error _ =>
        { tempCreated := true, tempExistsAtExit := false,
          reply := VoiceReply.errorReply }
    | Except.ok _ =>
        { tempCreated := true, tempExistsAtExit := false,
          reply := VoiceReply.analysisReply }

/-! Part: Helper lemmas and sample states -/

theorem pendingLookup_pendingErase (tok : String) (l : List (String × Invitation)) :
    pendingLookup tok (pendingErase tok l) = none := by
  induction l with
  | nil => rfl
  | cons p rest ih =>
      obtain ⟨k, v⟩ := p
      by_cases hk : k = tok
      · simp [pendingErase, hk, ih]
      · simp [pendingErase, pendingLookup, hk, ih]

/-- A bot state with one pending invitation, token "tok", created at time 0
by admin 1; used to evaluate the invitation handlers on concrete input. -/
def sampleState : BotState :=
  { admin_user_id := 1, authorized_users := ∅, users_file := none,
    pending_invitations := [("tok", { created_by := 1, created_at := 0 })] }

/-- An empty user manager, as produced by construction from an absent file
with no admin configured. -/
def emptyUM : UMState := { users := ∅, file := FileState.parsed ∅ }

/-- The manager state right after construction from an absent file with
admin 42 configured. -/
def bootUM : UMState := { users := {42}, file := FileState.parsed {42} }

/-- A manager state whose backing file already lists identity 5, as loaded
at construction. -/
def memberUM : UMState := { users := {5}, file := FileState.parsed {5} }

/-! Part: Claims -/

/-- C1: issuing an invitation token and then redeeming it grants membership
to the redeemer and reports success; an immediately following second
redemption of the same token reports invalid and changes nothing. -/
theorem invite_token_single_use (s : BotState) (tok : String)
    (now n1 n2 : Nat) (u u2 : Int) :
    (process_invitation (invite_command s s.admin_user_id tok now).1 u tok n1).2.1
        = InvResult.success ∧
    (process_invitation (invite_command s s.admin_user_id tok now).1 u tok n1).1.authorized_users
        = insert u (invite_command s s.admin_user_id tok now).1.authorized_users ∧
    (process_invitation
        (process_invitation (invite_command s s.admin_user_id tok now).1 u tok n1).1
        u2 tok n2).2.1 = InvResult.invalid ∧
    (process_invitation
        (process_invitation (invite_command s s.admin_user_id tok now).1 u tok n1).1
        u2 tok n2).1
      = (process_invitation (invite_command s s.admin_user_id tok now).1 u tok n1).1 := by
  simp [invite_command, process_invitation, pendingLookup, pendingErase,
    pendingLookup_pendingErase]

/-- C2 counterexample: on a concrete pending token, the redemption trace of
`TelegramAIBot.process_invitation` contains both the store-add and the
token-removal, but the removal does NOT precede the add: the source runs
`authorized_users.add`, then `save_authorized_users`, then
`del pending_invitations[token]`. -/
theorem redeem_remove_before_add_counterexample :
    (idxOf? isRemoveEvent (process_invitation sampleState 5 "tok" 0).2.2).isSome = true ∧
    (idxOf? isAddEvent (process_invitation sampleState 5 "tok" 0).2.2).isSome = true ∧
    removeBeforeAdd (process_invitation sampleState 5 "tok" 0).2.2 = false := by
  decide

/-- C2 amended: redemption of a pending token performs the
authorization-store add strictly BEFORE removing the token from the pending
map (add first, then remove); the removal still happens unconditionally in
the same handler body, so the token is no longer pending afterwards. -/
theorem redeem_add_then_remove (s : BotState) (uid : Int) (tok : String)
    (now : Nat) (h : (pendingLookup tok s.pending_invitations).isSome = true) :
    addBeforeRemove (process_invitation s uid tok now).2.2 = true ∧
    pendingLookup tok (process_invitation s uid tok now).1.pending_invitations
      = none := by
  cases hl : pendingLookup tok s.pending_invitations with
  | none => rw [hl] at h; simp at h
  | some v =>
      simp [process_invitation, hl, addBeforeRemove, idxOf?,
        isAddEvent, isRemoveEvent, pendingLookup_pendingErase]

theorem redeem_add_then_remove_witness :
    addBeforeRemove (process_invitation sampleState 5 "tok" 0).2.2 = true ∧
    pendingLookup "tok"
        (process_invitation sampleState 5 "tok" 0).1.pending_invitations
      = none :=
  redeem_add_then_remove sampleState 5 "tok" 0 (by decide)

/-- C3: a token created at time 0 and redeemed at time 90000 (25 hours
later, beyond the 24-hour `VALIDITY_WINDOW`) is still granted:
`process_invitation` never compares `created_at` against a clock, so the
redeemer is added and the reply is the success message, where the claim
(and the bot's own invite message) says expired, no grant. -/
theorem expired_token_granted :
    pendingLookup "tok" sampleState.pending_invitations
      = some { created_by := 1, created_at := 0 } ∧
    VALIDITY_WINDOW < 90000 - 0 ∧
    (process_invitation sampleState 99 "tok" 90000).2.1 = InvResult.success ∧
    (99 : Int) ∈ (process_invitation sampleState 99 "tok" 90000).1.authorized_users := by
  decide

/-- C4: the fallback chain of `AIService.transcribe_audio` is attempted in
the fixed order subprocess, curl, in-process client; the text of the first
succeeding strategy is returned and no later strategy is invoked; the
result is an error exactly when all three strategies fail. -/
theorem transcription_fallback_chain (r1 r2 r3 : Except String String) :
    (∀ t, r1 = Except.ok t →
        transcribe_audio r1 r2 r3 = (Except.ok t, [Strategy.subprocess])) ∧
    (∀ t, (∃ e, r1 = Except.error e) → r2 = Except.ok t →
        transcribe_audio r1 r2 r3
          = (Except.ok t, [Strategy.subprocess, Strategy.curl])) ∧
    (∀ t, (∃ e, r1 = Except.error e) → (∃ e, r2 = Except.error e) →
        r3 = Except.ok t →
        transcribe_audio r1 r2 r3
          = (Except.ok t,
              [Strategy.subprocess, Strategy.curl, Strategy.whisperClient])) ∧
    ((∃ e, (transcribe_audio r1 r2 r3).1 = Except.error e) ↔
        (∃ e, r1 = Except.error e) ∧ (∃ e, r2 = Except.error e) ∧
        (∃ e, r3 = Except.error e)) := by
  cases r1 <;> cases r2 <;> cases r3 <;> simp [transcribe_audio]

theorem transcription_fallback_chain_witness :
    transcribe_audio (Except.error "boom") (Except.ok "hello") (Except.error "later")
      = (Except.ok "hello", [Strategy.subprocess, Strategy.curl]) :=
  (transcription_fallback_chain (Except.error "boom") (Except.ok "hello")
      (Except.error "later")).2.1 "hello" ⟨"boom", rfl⟩ rfl

/-- C5: in `bot.py`'s `handle_voice`, when the transcription fails (the
swallowed error makes `transcribe_audio` return `None`), the handler
replies "Could not transcribe audio" and returns with the temporary audio
artifact still on disk — the `os.unlink` sits only on the success path; the
package handler (`message_handlers.handle_voice`) removes the artifact on
the same terminal-failure path. -/
theorem voice_temp_artifact_leak :
    (bot_handle_voice true (Except.error "all strategies failed")).tempCreated
      = true ∧
    (bot_handle_voice true (Except.error "all strategies failed")).tempExistsAtExit
      = true ∧
    (bot_handle_voice true (Except.error "all strategies failed")).reply
      = VoiceReply.couldNotTranscribe ∧
    (pkg_handle_voice true (Except.error "e1") (Except.error "e2")
        (Except.error "e3")).tempExistsAtExit = false := by
  decide

theorem save_users_users (w : Bool) (s : UMState) :
    (save_users w s).users = s.users := by
  cases w <;> simp [save_users]

theorem add_user_of_mem (s : UMState) (uid : Int) (w : Bool)
    (h : uid ∈ s.users) : add_user s uid w = (false, s) := by
  simp [add_user, h]

theorem add_user_of_not_mem (s : UMState) (uid : Int) (w : Bool)
    (h : uid ∉ s.users) :
    add_user s uid w
      = (true, save_users w { s with users := insert uid s.users }) := by
  simp [add_user, h]

theorem remove_user_of_mem (s : UMState) (uid : Int) (w : Bool)
    (h : uid ∈ s.users) :
    remove_user s uid w
      = (true, save_users w { s with users := s.users.erase uid }) := by
  simp [remove_user, h]

/-- C6 counterexample: for an identity already a member (here 5, loaded
from the backing file at construction), calling `add_user` twice returns
`false` both times and the membership count does not change — refuting the
claim's "for every identity". -/
theorem add_twice_member_counterexample :
    mk_user_manager (FileState.parsed {5}) none true true = Except.ok memberUM ∧
    (add_user memberUM 5 true).1 = false ∧
    (add_user (add_user memberUM 5 true).2 5 true).1 = false ∧
    get_user_count (add_user (add_user memberUM 5 true).2 5 true).2
      = get_user_count memberUM := by
  refine ⟨rfl, by decide, by decide, by decide⟩

/-- C6 amended: for every identity NOT already a member, calling `add_user`
twice in a row returns `true` then `false`, and the membership count after
the two calls is exactly one greater than before them. -/
theorem add_twice_fresh_identity (s : UMState) (uid : Int) (w1 w2 : Bool)
    (h : uid ∉ s.users) :
    (add_user s uid w1).1 = true ∧
    (add_user (add_user s uid w1).2 uid w2).1 = false ∧
    get_user_count (add_user (add_user s uid w1).2 uid w2).2
      = get_user_count s + 1 := by
  have h2 : ((add_user s uid w1).2).users = insert uid s.users := by
    rw [add_user_of_not_mem s uid w1 h]
    exact save_users_users w1 _
  have hmem : uid ∈ ((add_user s uid w1).2).users := by
    rw [h2]; exact Finset.mem_insert_self _ _
  have hsecond := add_user_of_mem _ uid w2 hmem
  refine ⟨by rw [add_user_of_not_mem s uid w1 h], by rw [hsecond], ?_⟩
  rw [hsecond]
  simp [get_user_count, h2, Finset.card_insert_of_not_mem h]

theorem add_twice_fresh_identity_witness :
    (add_user emptyUM 7 true).1 = true ∧
    (add_user (add_user emptyUM 7 true).2 7 true).1 = false ∧
    get_user_count (add_user (add_user emptyUM 7 true).2 7 true).2
      = get_user_count emptyUM + 1 :=
  add_twice_fresh_identity emptyUM 7 true true (by decide)

/-- C7: for every identity not currently in the store, `is_authorized` is
false; after `add_user` of that identity it is true; after a subsequent
`remove_user` of the same identity it is false again. -/
theorem authorization_round_trip (s : UMState) (uid : Int) (w1 w2 : Bool)
    (h : uid ∉ s.users) :
    is_authorized s uid = false ∧
    is_authorized (add_user s uid w1).2 uid = true ∧
    is_authorized (remove_user (add_user s uid w1).2 uid w2).2 uid = false := by
  have h2 : ((add_user s uid w1).2).users = insert uid s.users := by
    rw [add_user_of_not_mem s uid w1 h]
    exact save_users_users w1 _
  have hmem : uid ∈ ((add_user s uid w1).2).users := by
    rw [h2]; exact Finset.mem_insert_self _ _
  refine ⟨by simp [is_authorized, h], by simp [is_authorized, hmem], ?_⟩
  rw [remove_user_of_mem _ uid w2 hmem]
  simp [is_authorized, save_users_users]

theorem authorization_round_trip_witness :
    is_authorized emptyUM 7 = false ∧
    is_authorized (add_user emptyUM 7 true).2 7 = true ∧
    is_authorized (remove_user (add_user emptyUM 7 true).2 7 true).2 7 = false :=
  authorization_round_trip emptyUM 7 true true (by decide)

/-- C8: whenever construction of the store succeeds with a configured
(nonzero) administrator identity, that identity is a member immediately
afterwards, for every state of the backing file (absent, unparsable, or
parsed with any contents) and every persistence outcome. -/
theorem admin_member_after_construction (f : FileState) (a : Int)
    (cok wok : Bool) (ha : a ≠ 0) (st : UMState)
    (h : mk_user_manager f (some a) cok wok = Except.ok st) :
    a ∈ st.users := by
  unfold mk_user_manager at h
  cases hf : ensure_file_exists f cok with
  | error e => rw [hf] at h; cases h
  | ok f1 =>
      rw [hf] at h
      by_cases hm : a ∈ load_users f1
      · simp [ha, hm] at h
        rw [← h]
        exact hm
      · simp [ha, hm] at h
        rw [← h, add_user_of_not_mem _ a wok hm]
        rw [save_users_users]
        exact Finset.mem_insert_self _ _

theorem admin_member_after_construction_witness :
    (42 : Int) ∈ bootUM.users :=
  admin_member_after_construction FileState.absent 42 true true (by decide)
    bootUM rfl

/-- C9 counterexample: with the backing file absent and the file-creation
write failing, store construction does NOT succeed: the unguarded
`_ensure_file_exists` (no try/except, unlike `_load_users` and
`_save_users`) propagates the error out of `__init__`. -/
theorem construction_fails_on_create_error :
    mk_user_manager FileState.absent none false true = Except.error () := rfl

/-- C9 amended: construction succeeds with the empty membership set when
the backing file is present but unparsable (any write outcome), or absent
with its creation succeeding; and a failing durable write during
`add_user` or `remove_user` changes neither the returned result nor the
in-memory membership, which always reflects the mutation. -/
theorem persistence_failures_tolerated :
    (∀ cok wok : Bool, mk_user_manager FileState.unparsable none cok wok
        = Except.ok { users := ∅, file := FileState.unparsable }) ∧
    (∀ wok : Bool, mk_user_manager FileState.absent none true wok
        = Except.ok { users := ∅, file := FileState.parsed ∅ }) ∧
    (∀ (s : UMState) (uid : Int),
        (add_user s uid false).1 = (add_user s uid true).1 ∧
        ((add_user s uid false).2).users = ((add_user s uid true).2).users ∧
        ((add_user s uid false).2).users
          = (if uid ∉ s.users then insert uid s.users else s.users)) ∧
    (∀ (s : UMState) (uid : Int),
        (remove_user s uid false).1 = (remove_user s uid true).1 ∧
        ((remove_user s uid false).2).users = ((remove_user s uid true).2).users ∧
        ((remove_user s uid false).2).users
          = (if uid ∈ s.users then s.users.erase uid else s.users)) := by
  refine ⟨fun cok wok => rfl, fun wok => rfl, ?_, ?_⟩
  · intro s uid
    by_cases h : uid ∈ s.users <;>
      simp [add_user, h, save_users_users]
  · intro s uid
    by_cases h : uid ∈ s.users <;>
      simp [remove_user, h, save_users_users]

/-- C10: `UserManager.generate_invite_token` returns the fresh random token
and leaves the manager state unchanged; the package `invite_command` built
on it likewise leaves the state unchanged — `UserManager` has no pending
map, and no issuer or creation time is recorded anywhere, so the minted
token is not registered for later redemption. -/
theorem generate_invite_token_pure (um : UMState) (adminId uid : Int)
    (rand : String) :
    (generate_invite_token um rand).1 = rand ∧
    (generate_invite_token um rand).2 = um ∧
    (pkg_invite_command um adminId uid rand).1 = um := by
  refine ⟨rfl, rfl, ?_⟩
  unfold pkg_invite_command
  split <;> rfl

end TgBot
